import Mathlib

/-!
Verification of the ignux-website data-synchronization core: the
content-manager hook (src/hooks/useContentManager.js) and the API client
(src/services/api.js), shallowly embedded in Lean.

Modelling conventions:
- A JS object is an association list with first-match lookup, so spread
  override `\x7b...a, ...b\x7d` is embedded as the list for b placed in
  front of the list for a.
- localStorage holds, per key, either a string that parses to a
  collection (modelled as `some v`) or a malformed string (modelled as
  `none`); the code only ever writes JSON.stringify of a collection,
  which re-parses to that collection.
- Network effects are an environment value: the outcome a fetch() call
  would produce (rejection, or a response with a status and a body whose
  json() parse succeeds or fails).
- A thrown JS error is `Except.error msg`; normal return is `Except.ok`.
- `Date.now()` is a natural-number parameter, `new Date().toISOString()`
  a string parameter, passed to the operations that read the clock.
-/

namespace Ignux

/-- Primitive JSON values carried in content-item fields; the hook treats
item fields opaquely, so primitives suffice for the synchronizer model. -/
inductive JVal where
  | str : String → JVal
  | num : Int → JVal
  | bool : Bool → JVal
  deriving DecidableEq

/-- A content item: a JS object as an association list with first-match
lookup semantics. -/
abbrev Obj := List (String × JVal)

/-- A collection of content items, as returned by the API or a cache. -/
abbrev Coll := List Obj

/-- The localStorage model: per key, `some v` stands for a stored string
that JSON-parses to the collection v, and `none` for a malformed string. -/
structure Store where
  entries : List (String × Option Coll)
  deriving DecidableEq

/-- Model of localStorage.getItem: outer `none` means the key is absent. -/
def Store.getItem (s : Store) (k : String) : Option (Option Coll) :=
  s.entries.lookup k

/-- Model of localStorage.setItem; first-match lookup makes prepending an
overwrite. -/
def Store.setItem (s : Store) (k : String) (v : Option Coll) : Store :=
  ⟨(k, v) :: s.entries⟩

/-- The react state of one useContentManager instance, plus the storage it
reads and writes. -/
structure MState where
  content : Coll
  loading : Bool
  error : Option String
  store : Store
  deriving DecidableEq

/-- Decidable equality for Except results, used to evaluate concrete
operation outcomes. -/
def exceptDecEq {ε α : Type} [DecidableEq ε] [DecidableEq α] :
    DecidableEq (Except ε α)
  | Except.ok x, Except.ok y =>
    if h : x = y then isTrue (by rw [h])
    else isFalse (by intro hc; cases hc; exact h rfl)
  | Except.ok _, Except.error _ => isFalse (by intro hc; cases hc)
  | Except.error _, Except.ok _ => isFalse (by intro hc; cases hc)
  | Except.error x, Except.error y =>
    if h : x = y then isTrue (by rw [h])
    else isFalse (by intro hc; cases hc; exact h rfl)

instance {ε α : Type} [DecidableEq ε] [DecidableEq α] :
    DecidableEq (Except ε α) := exceptDecEq

/-- Outcome of one GET fetch() call: rejection with a message, or a
response with an HTTP status and the result of response.json(). -/
inductive RemoteGet where
  | netErr (msg : String)
  | resp (status : Nat) (body : Except String Coll)
  deriving DecidableEq

/-- Outcome of one write (POST/PUT/DELETE) fetch() call: rejection, or a
response with an HTTP status; the hook never reads a write response body. -/
inductive RemoteWrite where
  | netErr (msg : String)
  | resp (status : Nat)
  deriving DecidableEq

/-- The ambient environment of one hook operation: whether
REACT_APP_API_URL is configured, and what the network would answer. -/
structure Env where
  apiUrl : Bool
  remoteGet : RemoteGet
  remoteWrite : RemoteWrite
  deriving DecidableEq

/-- Result of one hook operation: the post-state, the return value or the
thrown error, and how many network calls were attempted. -/
structure OpResult (α : Type) where
  st : MState
  res : Except String α
  netCalls : Nat

/-- Model of Response.ok: status in the 2xx range. -/
def respOk (status : Nat) : Bool := 200 ≤ status && status < 300

/-- Primary cache key, ignux_ prefixed by the content type. -/
def primaryKey (contentType : String) : String := "ignux_" ++ contentType

/-- Fallback cache key read by the catch branch of fetchContent. -/
def fallbackKey (contentType : String) : String :=
  "ignux_" ++ contentType ++ "_fallback"

/-- Message of the SyntaxError thrown by JSON.parse on a malformed string. -/
def jsonParseError : String := "Unexpected token in JSON"

/-- The catch block of fetchContent: record the error message, then read
the fallback cache; JSON.parse of a malformed fallback throws out of the
catch block, so that error propagates to the caller. The finally block
clears loading on every path. -/
def fetchCatch (msg : String) (contentType : String) (st : MState)
    (n : Nat) : OpResult Unit :=
  let st1 : MState := { st with error := some msg }
  match st1.store.getItem (fallbackKey contentType) with
  | some (some v) =>
    { st := { st1 with content := v, loading := false },
      res := Except.ok (), netCalls := n }
  | some none =>
    { st := { st1 with loading := false },
      res := Except.error jsonParseError, netCalls := n }
  | none =>
    { st := { st1 with loading := false },
      res := Except.ok (), netCalls := n }

/-- The localStorage fallback inside the try block of fetchContent: read
the primary cache; a malformed entry makes JSON.parse throw into the
catch block. -/
def fetchLocal (contentType : String) (st : MState) (n : Nat) :
    OpResult Unit :=
  match st.store.getItem (primaryKey contentType) with
  | some (some v) =>
    { st := { st with content := v, loading := false },
      res := Except.ok (), netCalls := n }
  | some none => fetchCatch jsonParseError contentType st n
  | none =>
    { st := { st with loading := false }, res := Except.ok (), netCalls := n }

/-- Embedding of fetchContent: try the API when configured (a 2xx response
with a parsing body is stored in state and the primary cache), otherwise
fall back to the primary cache; thrown failures are handled by the catch
block. -/
def fetchContent (env : Env) (contentType : String) (st : MState) :
    OpResult Unit :=
  let st1 : MState := { st with loading := true }
  if env.apiUrl then
    match env.remoteGet with
    | RemoteGet.netErr msg => fetchCatch msg contentType st1 1
    | RemoteGet.resp status body =>
      if respOk status then
        match body with
        | Except.ok data =>
          { st :=
              { st1 with
                content := data,
                loading := false,
                store := st1.store.setItem (primaryKey contentType)
                  (some data) },
            res := Except.ok (), netCalls := 1 }
        | Except.error msg => fetchCatch msg contentType st1 1
      else fetchLocal contentType st1 1
  else fetchLocal contentType st1 0

/-- The itemWithMeta object built by addContent: spread of the caller
item, then id, createdAt and updatedAt literals; later literals override,
which first-match lookup renders by putting them in front. -/
def itemWithMeta (newItem : Obj) (ts : Nat) (nowIso : String) : Obj :=
  ("id", JVal.str (Nat.repr ts)) ::
  ("createdAt", JVal.str nowIso) ::
  ("updatedAt", JVal.str nowIso) :: newItem

/-- Embedding of addContent: prepend the item with synthesized metadata,
persist to the primary cache, then POST when the API is configured; a
rejected POST is re-thrown after the local mutation, and the response
status of a resolved POST is never inspected. -/
def addContent (env : Env) (contentType : String) (st : MState)
    (newItem : Obj) (ts : Nat) (nowIso : String) : OpResult Obj :=
  let item := itemWithMeta newItem ts nowIso
  let updatedContent := item :: st.content
  let st1 : MState :=
    { st with
      content := updatedContent,
      store := st.store.setItem (primaryKey contentType)
        (some updatedContent) }
  if env.apiUrl then
    match env.remoteWrite with
    | RemoteWrite.netErr msg =>
      { st := st1, res := Except.error msg, netCalls := 1 }
    | RemoteWrite.resp _ =>
      { st := st1, res := Except.ok item, netCalls := 1 }
  else { st := st1, res := Except.ok item, netCalls := 0 }

/-- The merged object built by updateContent for a matching item: spread
of the item, then the patch, then an updatedAt literal; override order is
rendered by list order under first-match lookup. -/
def mergePatch (item : Obj) (patch : Obj) (nowIso : String) : Obj :=
  ("updatedAt", JVal.str nowIso) :: (patch ++ item)

/-- Embedding of updateContent: map over the collection patching the items
whose id strictly equals the argument, persist, then PUT when the API is
configured; a rejected PUT is re-thrown, a resolved PUT is never
inspected. -/
def updateContent (env : Env) (contentType : String) (st : MState)
    (id : String) (patch : Obj) (nowIso : String) : OpResult Unit :=
  let updatedContent := st.content.map fun item =>
    if item.lookup "id" == some (JVal.str id)
    then mergePatch item patch nowIso else item
  let st1 : MState :=
    { st with
      content := updatedContent,
      store := st.store.setItem (primaryKey contentType)
        (some updatedContent) }
  if env.apiUrl then
    match env.remoteWrite with
    | RemoteWrite.netErr msg =>
      { st := st1, res := Except.error msg, netCalls := 1 }
    | RemoteWrite.resp _ =>
      { st := st1, res := Except.ok (), netCalls := 1 }
  else { st := st1, res := Except.ok (), netCalls := 0 }

/-- Embedding of deleteContent: filter out the items whose id strictly
equals the argument, persist, then DELETE when the API is configured. -/
def deleteContent (env : Env) (contentType : String) (st : MState)
    (id : String) : OpResult Unit :=
  let updatedContent := st.content.filter fun item =>
    !(item.lookup "id" == some (JVal.str id))
  let st1 : MState :=
    { st with
      content := updatedContent,
      store := st.store.setItem (primaryKey contentType)
        (some updatedContent) }
  if env.apiUrl then
    match env.remoteWrite with
    | RemoteWrite.netErr msg =>
      { st := st1, res := Except.error msg, netCalls := 1 }
    | RemoteWrite.resp _ =>
      { st := st1, res := Except.ok (), netCalls := 1 }
  else { st := st1, res := Except.ok (), netCalls := 0 }

/-!
Operation sequences over one hook instance, used to reason about the
collection invariants maintained by the write operations.
-/

/-- One write operation of the hook, with the environment and clock values
it observes at its own invocation. -/
inductive Op where
  | add (env : Env) (newItem : Obj) (ts : Nat) (nowIso : String)
  | update (env : Env) (id : String) (patch : Obj) (nowIso : String)
  | remove (env : Env) (id : String)

/-- Post-state of one write operation; the state is updated the same way
whether or not the remote call afterwards throws. -/
def applyOp (contentType : String) (st : MState) : Op → MState
  | Op.add env newItem ts nowIso =>
    (addContent env contentType st newItem ts nowIso).st
  | Op.update env id patch nowIso =>
    (updateContent env contentType st id patch nowIso).st
  | Op.remove env id => (deleteContent env contentType st id).st

/-- Running a sequence of write operations from a starting state. -/
def runOps (contentType : String) (st : MState) (ops : List Op) : MState :=
  ops.foldl (applyOp contentType) st

/-- The timestamp observed by an add operation, if the operation is one. -/
def Op.addTs : Op → Option Nat
  | Op.add _ _ ts _ => some ts
  | _ => none

/-- The id strings synthesized by the add operations of a sequence, in
order. -/
def addIds (ops : List Op) : List String :=
  (ops.filterMap Op.addTs).map Nat.repr

/-- Whether an operation is an update whose patch object carries an id
field of its own. -/
def Op.patchHasId : Op → Bool
  | Op.update _ _ patch _ => (patch.lookup "id").isSome
  | _ => false

/-- The id fields of the items of the current collection, in order;
`none` stands for a JS undefined id. -/
def contentIds (st : MState) : List (Option JVal) :=
  st.content.map fun item => item.lookup "id"

/-!
Embedding of the API client (src/services/api.js). The request body and
URL of each operation flow only to the network, so each operation is
embedded as a function of the response outcome it gets back; ids of the
eight operations keep the method names of the IGNUXApi class.
-/

/-- JSON values as returned by response.json(), including the JS
undefined value produced by a missing property. -/
inductive Json where
  | str : String → Json
  | num : Int → Json
  | bool : Bool → Json
  | null : Json
  | undef : Json
  | arr : List Json → Json
  | obj : List (String × Json) → Json

/-- Outcome of one API fetch() call: rejection, or a response with an
HTTP status and the outcome of response.json(). -/
inductive ApiResp where
  | netErr (msg : String)
  | resp (status : Nat) (body : Except String Json)

/-- JS property access: throws a TypeError on null and undefined, yields
undefined for a missing key or a non-object receiver. -/
def propAccess : Json → String → Except String Json
  | Json.null, k =>
    Except.error ("TypeError: Cannot read properties of null (reading "
      ++ k ++ ")")
  | Json.undef, k =>
    Except.error ("TypeError: Cannot read properties of undefined (reading "
      ++ k ++ ")")
  | Json.obj fields, k => Except.ok ((fields.lookup k).getD Json.undef)
  | _, _ => Except.ok Json.undef

/-- The shared shape of the seven async IGNUXApi operations: re-throw a
network rejection, throw a fixed operation message on a non-2xx response,
otherwise return the parsed body (or propagate the json() rejection). -/
def requestJson (failMsg : String) (r : ApiResp) : Except String Json :=
  match r with
  | ApiResp.netErr msg => Except.error msg
  | ApiResp.resp status body =>
    if respOk status then body else Except.error failMsg

/-- Embedding of IGNUXApi.submitContact (POST contacts). -/
def submitContact (r : ApiResp) : Except String Json :=
  requestJson "Failed to submit contact form" r

/-- Embedding of IGNUXApi.createBooking (POST bookings). -/
def createBooking (r : ApiResp) : Except String Json :=
  requestJson "Failed to create booking" r

/-- Embedding of IGNUXApi.getBookings (GET bookings with query filters). -/
def getBookings (r : ApiResp) : Except String Json :=
  requestJson "Failed to fetch bookings" r

/-- Embedding of IGNUXApi.getServices (GET services, optional category). -/
def getServices (r : ApiResp) : Except String Json :=
  requestJson "Failed to fetch services" r

/-- Embedding of IGNUXApi.getTestimonials (GET services testimonials). -/
def getTestimonials (r : ApiResp) : Except String Json :=
  requestJson "Failed to fetch testimonials" r

/-- Embedding of IGNUXApi.requestQuote (POST contacts quick-quote). -/
def requestQuote (r : ApiResp) : Except String Json :=
  requestJson "Failed to submit quote request" r

/-- Embedding of IGNUXApi.subscribeNewsletter (POST newsletter
subscribe). -/
def subscribeNewsletter (r : ApiResp) : Except String Json :=
  requestJson "Failed to subscribe to newsletter" r

/-- Embedding of IGNUXApi.generateWhatsAppLink: parses the body of any
response without consulting its status, then evaluates
data.data.whatsapp_url under JS property-access semantics. -/
def generateWhatsAppLink (r : ApiResp) : Except String Json :=
  match r with
  | ApiResp.netErr msg => Except.error msg
  | ApiResp.resp _ body =>
    match body with
    | Except.error msg => Except.error msg
    | Except.ok j =>
      match propAccess j "data" with
      | Except.error msg => Except.error msg
      | Except.ok d => propAccess d "whatsapp_url"

/-!
Concrete fixtures used by the counterexample and witness statements.
-/

/-- The initial state of a fresh hook instance over an empty storage. -/
def initState : MState :=
  { content := [], loading := false, error := none, store := ⟨[]⟩ }

/-- An environment with no REACT_APP_API_URL configured. -/
def envOffline : Env :=
  { apiUrl := false,
    remoteGet := RemoteGet.resp 200 (Except.ok []),
    remoteWrite := RemoteWrite.resp 200 }

/-- An environment whose remote write resolves with a 500 response. -/
def envWrite500 : Env :=
  { apiUrl := true,
    remoteGet := RemoteGet.resp 200 (Except.ok []),
    remoteWrite := RemoteWrite.resp 500 }

/-- An environment whose remote write call rejects with a network error. -/
def envWriteNetErr : Env :=
  { apiUrl := true,
    remoteGet := RemoteGet.resp 200 (Except.ok []),
    remoteWrite := RemoteWrite.netErr "NetworkError when attempting to fetch resource" }

/-- A state whose primary and fallback cache entries for blog are both
malformed strings. -/
def stBadCaches : MState :=
  { content := [], loading := false, error := none,
    store := ⟨[(primaryKey "blog", none), (fallbackKey "blog", none)]⟩ }

/-- A one-item services collection whose single item has id 1. -/
def stOneService : MState :=
  { content := [[("id", JVal.str "1"), ("price", JVal.num 45)]],
    loading := false, error := none, store := ⟨[]⟩ }

/-- A state whose primary cache for services holds a one-item collection. -/
def stCached : MState :=
  { content := [], loading := false, error := none,
    store := ⟨[(primaryKey "services", some [[("id", JVal.str "9")]])]⟩ }

/-- A state holding one blog item created on a known date. -/
def stCreatedA : MState :=
  { content := [[("id", JVal.str "1"), ("createdAt", JVal.str "2024-01-01")]],
    loading := false, error := none, store := ⟨[]⟩ }

/-- An environment whose remote GET resolves with a 200 response whose
body parses to a one-item collection. -/
def envGetOk : Env :=
  { apiUrl := true,
    remoteGet := RemoteGet.resp 200 (Except.ok [[("id", JVal.str "2")]]),
    remoteWrite := RemoteWrite.resp 200 }

/-- A state carrying an error message recorded by an earlier failed
fetch. -/
def stWithError : MState :=
  { content := [], loading := false, error := some "old failure",
    store := ⟨[]⟩ }

/-!
Helper lemmas about association-list lookup and the store.
-/

theorem lookup_cons_self {β : Type} (k : String) (b : β)
    (l : List (String × β)) : ((k, b) :: l).lookup k = some b := by
  simp [List.lookup]

theorem lookup_cons_ne {β : Type} (k a : String) (b : β)
    (l : List (String × β)) (h : (k == a) = false) :
    ((a, b) :: l).lookup k = l.lookup k := by
  simp [List.lookup, h]

theorem lookup_append_left_none {β : Type} (k : String)
    (l1 l2 : List (String × β)) (h : l1.lookup k = none) :
    (l1 ++ l2).lookup k = l2.lookup k := by
  induction l1 with
  | nil => simp
  | cons p rest ih =>
    obtain ⟨a, b⟩ := p
    cases hk : k == a with
    | true =>
      rw [List.cons_append, List.lookup] at *
      simp [hk] at h
    | false =>
      rw [List.cons_append, List.lookup, hk]
      rw [List.lookup, hk] at h
      exact ih h

theorem getItem_setItem_self (s : Store) (k : String) (v : Option Coll) :
    (s.setItem k v).getItem k = some v := by
  simp [Store.getItem, Store.setItem, lookup_cons_self]

/-- The post-state of addContent, identical across all remote outcomes. -/
theorem addContent_st (env : Env) (ct : String) (st : MState)
    (newItem : Obj) (ts : Nat) (iso : String) :
    (addContent env ct st newItem ts iso).st =
      { st with
        content := itemWithMeta newItem ts iso :: st.content,
        store := st.store.setItem (primaryKey ct)
          (some (itemWithMeta newItem ts iso :: st.content)) } := by
  obtain ⟨a, g, w⟩ := env
  cases a <;> cases w <;> rfl

/-- The post-state of updateContent, identical across all remote
outcomes. -/
theorem updateContent_st (env : Env) (ct : String) (st : MState)
    (id : String) (patch : Obj) (iso : String) :
    (updateContent env ct st id patch iso).st =
      { st with
        content := st.content.map fun item =>
          if item.lookup "id" == some (JVal.str id)
          then mergePatch item patch iso else item,
        store := st.store.setItem (primaryKey ct)
          (some (st.content.map fun item =>
            if item.lookup "id" == some (JVal.str id)
            then mergePatch item patch iso else item)) } := by
  obtain ⟨a, g, w⟩ := env
  cases a <;> cases w <;> rfl

/-- The post-state of deleteContent, identical across all remote
outcomes. -/
theorem deleteContent_st (env : Env) (ct : String) (st : MState)
    (id : String) :
    (deleteContent env ct st id).st =
      { st with
        content := st.content.filter fun item =>
          !(item.lookup "id" == some (JVal.str id)),
        store := st.store.setItem (primaryKey ct)
          (some (st.content.filter fun item =>
            !(item.lookup "id" == some (JVal.str id)))) } := by
  obtain ⟨a, g, w⟩ := env
  cases a <;> cases w <;> rfl

/-!
Claim theorems.
-/

/-- C3: a successful add leaves the newly created item at index 0 of the
collection, its id field is the synthesized id, and the collection length
grows by exactly one. -/
theorem add_newest_first (env : Env) (ct : String) (st : MState)
    (newItem : Obj) (ts : Nat) (iso : String)
    (h : (addContent env ct st newItem ts iso).res.isOk = true) :
    (addContent env ct st newItem ts iso).st.content.head? =
      some (itemWithMeta newItem ts iso) ∧
    (itemWithMeta newItem ts iso).lookup "id" =
      some (JVal.str (Nat.repr ts)) ∧
    (addContent env ct st newItem ts iso).st.content.length =
      st.content.length + 1 := by
  refine ⟨?_, ?_, ?_⟩
  · simp [addContent_st]
  · simp [itemWithMeta, lookup_cons_self]
  · simp [addContent_st]

theorem add_newest_first_witness :
    (addContent envOffline "blog" initState [("title", JVal.str "x")] 7
      "2025-01-01").res.isOk = true ∧
    ((addContent envOffline "blog" initState [("title", JVal.str "x")] 7
      "2025-01-01").st.content.head? =
        some (itemWithMeta [("title", JVal.str "x")] 7 "2025-01-01") ∧
     (itemWithMeta [("title", JVal.str "x")] 7 "2025-01-01").lookup "id" =
        some (JVal.str (Nat.repr 7)) ∧
     (addContent envOffline "blog" initState [("title", JVal.str "x")] 7
       "2025-01-01").st.content.length = initState.content.length + 1) :=
  ⟨rfl, add_newest_first envOffline "blog" initState
    [("title", JVal.str "x")] 7 "2025-01-01" rfl⟩

/-- C10: the metadata synthesized by addContent always overrides any
caller-supplied id, createdAt or updatedAt field, and the returned item is
exactly the item with synthesized metadata. -/
theorem add_metadata_overrides_caller (env : Env) (ct : String)
    (st : MState) (newItem : Obj) (ts : Nat) (iso : String) :
    (itemWithMeta newItem ts iso).lookup "id" =
      some (JVal.str (Nat.repr ts)) ∧
    (itemWithMeta newItem ts iso).lookup "createdAt" =
      some (JVal.str iso) ∧
    (itemWithMeta newItem ts iso).lookup "updatedAt" =
      some (JVal.str iso) ∧
    ∀ r, (addContent env ct st newItem ts iso).res = Except.ok r →
      r = itemWithMeta newItem ts iso := by
  refine ⟨?_, ?_, ?_, ?_⟩
  · simp [itemWithMeta, lookup_cons_self]
  · simp [itemWithMeta, List.lookup]
  · simp [itemWithMeta, List.lookup]
  · intro r h
    obtain ⟨a, g, w⟩ := env
    cases a <;> cases w <;> simp [addContent] at h <;> exact h.symm

theorem add_metadata_overrides_caller_witness :
    (itemWithMeta [("id", JVal.str "evil"), ("createdAt", JVal.str "1999")]
      3 "2025-02-02").lookup "id" = some (JVal.str (Nat.repr 3)) ∧
    (itemWithMeta [("id", JVal.str "evil"), ("createdAt", JVal.str "1999")]
      3 "2025-02-02").lookup "createdAt" = some (JVal.str "2025-02-02") ∧
    (itemWithMeta [("id", JVal.str "evil"), ("createdAt", JVal.str "1999")]
      3 "2025-02-02").lookup "updatedAt" = some (JVal.str "2025-02-02") ∧
    (∀ r, (addContent envOffline "blog" initState
      [("id", JVal.str "evil"), ("createdAt", JVal.str "1999")] 3
      "2025-02-02").res = Except.ok r →
        r = itemWithMeta [("id", JVal.str "evil"),
          ("createdAt", JVal.str "1999")] 3 "2025-02-02") :=
  add_metadata_overrides_caller envOffline "blog" initState
    [("id", JVal.str "evil"), ("createdAt", JVal.str "1999")] 3 "2025-02-02"

/-- C5: with no remote endpoint configured and a parseable primary cache
entry, fetch sets the content to exactly the cached collection, and none
of fetch, add, update, remove attempts a network call. -/
theorem cache_only_mode (env : Env) (ct : String) (st : MState) (v : Coll)
    (newItem : Obj) (ts : Nat) (iso id : String) (patch : Obj)
    (hapi : env.apiUrl = false)
    (hcache : st.store.getItem (primaryKey ct) = some (some v)) :
    (fetchContent env ct st).st.content = v ∧
    (fetchContent env ct st).res = Except.ok () ∧
    (fetchContent env ct st).netCalls = 0 ∧
    (addContent env ct st newItem ts iso).netCalls = 0 ∧
    (updateContent env ct st id patch iso).netCalls = 0 ∧
    (deleteContent env ct st id).netCalls = 0 := by
  refine ⟨?_, ?_, ?_, ?_, ?_, ?_⟩ <;>
    simp [fetchContent, fetchLocal, addContent, updateContent,
      deleteContent, hapi, hcache]

theorem cache_only_mode_witness :
    envOffline.apiUrl = false ∧
    stCached.store.getItem (primaryKey "services") =
      some (some [[("id", JVal.str "9")]]) ∧
    ((fetchContent envOffline "services" stCached).st.content =
      [[("id", JVal.str "9")]] ∧
     (fetchContent envOffline "services" stCached).res = Except.ok () ∧
     (fetchContent envOffline "services" stCached).netCalls = 0 ∧
     (addContent envOffline "services" stCached [] 1 "t").netCalls = 0 ∧
     (updateContent envOffline "services" stCached "1" [] "t").netCalls = 0 ∧
     (deleteContent envOffline "services" stCached "1").netCalls = 0) :=
  ⟨rfl, rfl, cache_only_mode envOffline "services" stCached
    [[("id", JVal.str "9")]] [] 1 "t" "1" [] rfl rfl⟩

/-- Behavior of the catch block of fetchContent when the fallback cache
entry is absent or parseable: it returns normally, records the thrown
message, and either keeps or replaces the content with the fallback
collection. -/
theorem fetchCatch_spec (msg ct : String) (st : MState) (n : Nat)
    (h : st.store.getItem (fallbackKey ct) ≠ some none) :
    (fetchCatch msg ct st n).res = Except.ok () ∧
    (fetchCatch msg ct st n).st.error = some msg ∧
    ((fetchCatch msg ct st n).st.content = st.content ∨
      ∃ v, st.store.getItem (fallbackKey ct) = some (some v) ∧
        (fetchCatch msg ct st n).st.content = v) := by
  cases hf : st.store.getItem (fallbackKey ct) with
  | none => simp [fetchCatch, hf]
  | some o =>
    cases o with
    | none => exact absurd hf h
    | some v =>
      refine ⟨by simp [fetchCatch, hf], by simp [fetchCatch, hf], ?_⟩
      exact Or.inr ⟨v, rfl, by simp [fetchCatch, hf]⟩

/-- Behavior of the localStorage branch of the try block of fetchContent
when the fallback cache entry is absent or parseable: it returns
normally, touches the error state only to record a parse failure, and
the content ends as the prior content or a cached collection. -/
theorem fetchLocal_spec (ct : String) (st : MState) (n : Nat)
    (h : st.store.getItem (fallbackKey ct) ≠ some none) :
    (fetchLocal ct st n).res = Except.ok () ∧
    ((fetchLocal ct st n).st.error = st.error ∨
      ((fetchLocal ct st n).st.error).isSome = true) ∧
    ((fetchLocal ct st n).st.content = st.content ∨
     (∃ v, st.store.getItem (primaryKey ct) = some (some v) ∧
       (fetchLocal ct st n).st.content = v) ∨
     (∃ v, st.store.getItem (fallbackKey ct) = some (some v) ∧
       (fetchLocal ct st n).st.content = v)) := by
  cases hp : st.store.getItem (primaryKey ct) with
  | none => simp [fetchLocal, hp]
  | some o =>
    cases o with
    | none =>
      have hc := fetchCatch_spec jsonParseError ct st n h
      refine ⟨?_, ?_, ?_⟩
      · simpa [fetchLocal, hp] using hc.1
      · refine Or.inr ?_
        have := hc.2.1
        simp only [fetchLocal, hp]
        simp [this]
      · rcases hc.2.2 with hsame | ⟨v, hv, hcv⟩
        · exact Or.inl (by simpa [fetchLocal, hp] using hsame)
        · exact Or.inr (Or.inr ⟨v, hv, by simpa [fetchLocal, hp] using hcv⟩)
    | some v =>
      refine ⟨by simp [fetchLocal, hp], Or.inl (by simp [fetchLocal, hp]), ?_⟩
      exact Or.inr (Or.inl ⟨v, rfl, by simp [fetchLocal, hp]⟩)

/-- C1 counterexample: when a failure inside the try block (here a
malformed primary cache entry) is followed by a malformed fallback cache
entry, the JSON.parse inside the catch block throws, and fetch raises the
parse error to its caller. -/
theorem fetch_raises_cex :
    (fetchContent envOffline "blog" stBadCaches).res =
      Except.error jsonParseError := rfl

/-- C1 amended: when the fallback cache entry for the content type, if
present, is parseable, fetch never raises to its caller: it returns
normally, at most records an error message in state, and the content
degrades to the remote collection, a cached collection, or the prior
(possibly empty) collection. -/
theorem fetch_no_raise_amended (env : Env) (ct : String) (st : MState)
    (h : st.store.getItem (fallbackKey ct) ≠ some none) :
    (fetchContent env ct st).res = Except.ok () ∧
    ((fetchContent env ct st).st.error = st.error ∨
      ((fetchContent env ct st).st.error).isSome = true) ∧
    ((fetchContent env ct st).st.content = st.content ∨
     (∃ status v, env.apiUrl = true ∧
       env.remoteGet = RemoteGet.resp status (Except.ok v) ∧
       (fetchContent env ct st).st.content = v) ∨
     (∃ v, st.store.getItem (primaryKey ct) = some (some v) ∧
       (fetchContent env ct st).st.content = v) ∨
     (∃ v, st.store.getItem (fallbackKey ct) = some (some v) ∧
       (fetchContent env ct st).st.content = v)) := by
  obtain ⟨a, g, w⟩ := env
  cases a with
  | false =>
    have hl := fetchLocal_spec ct { st with loading := true } 0 h
    refine ⟨by simpa [fetchContent] using hl.1, ?_, ?_⟩
    · rcases hl.2.1 with he | he
      · exact Or.inl (by simpa [fetchContent] using he)
      · exact Or.inr (by simpa [fetchContent] using he)
    · rcases hl.2.2 with hc | ⟨v, hv, hc⟩ | ⟨v, hv, hc⟩
      · exact Or.inl (by simpa [fetchContent] using hc)
      · exact Or.inr (Or.inr (Or.inl ⟨v, hv,
          by simpa [fetchContent] using hc⟩))
      · exact Or.inr (Or.inr (Or.inr ⟨v, hv,
          by simpa [fetchContent] using hc⟩))
  | true =>
    cases g with
    | netErr msg =>
      have hc := fetchCatch_spec msg ct { st with loading := true } 1 h
      refine ⟨by simpa [fetchContent] using hc.1,
        Or.inr (by simp [fetchContent, hc.2.1]), ?_⟩
      rcases hc.2.2 with hcc | ⟨v, hv, hcc⟩
      · exact Or.inl (by simpa [fetchContent] using hcc)
      · exact Or.inr (Or.inr (Or.inr ⟨v, hv,
          by simpa [fetchContent] using hcc⟩))
    | resp status body =>
      cases hs : respOk status with
      | false =>
        have hl := fetchLocal_spec ct { st with loading := true } 1 h
        refine ⟨by simpa [fetchContent, hs] using hl.1, ?_, ?_⟩
        · rcases hl.2.1 with he | he
          · exact Or.inl (by simpa [fetchContent, hs] using he)
          · exact Or.inr (by simpa [fetchContent, hs] using he)
        · rcases hl.2.2 with hc | ⟨v, hv, hc⟩ | ⟨v, hv, hc⟩
          · exact Or.inl (by simpa [fetchContent, hs] using hc)
          · exact Or.inr (Or.inr (Or.inl ⟨v, hv,
              by simpa [fetchContent, hs] using hc⟩))
          · exact Or.inr (Or.inr (Or.inr ⟨v, hv,
              by simpa [fetchContent, hs] using hc⟩))
      | true =>
        cases body with
        | ok data =>
          refine ⟨by simp [fetchContent, hs],
            Or.inl (by simp [fetchContent, hs]), ?_⟩
          exact Or.inr (Or.inl ⟨status, data, rfl, rfl,
            by simp [fetchContent, hs]⟩)
        | error msg =>
          have hc := fetchCatch_spec msg ct { st with loading := true } 1 h
          refine ⟨by simpa [fetchContent, hs] using hc.1,
            Or.inr (by simp [fetchContent, hs, hc.2.1]), ?_⟩
          rcases hc.2.2 with hcc | ⟨v, hv, hcc⟩
          · exact Or.inl (by simpa [fetchContent, hs] using hcc)
          · exact Or.inr (Or.inr (Or.inr ⟨v, hv,
              by simpa [fetchContent, hs] using hcc⟩))

theorem fetch_no_raise_amended_witness :
    (stOneService.store.getItem (fallbackKey "portfolio") ≠ some none) ∧
    ((fetchContent envOffline "portfolio" stOneService).res =
      Except.ok () ∧
     ((fetchContent envOffline "portfolio" stOneService).st.error =
        stOneService.error ∨
      ((fetchContent envOffline "portfolio" stOneService).st.error).isSome =
        true) ∧
     ((fetchContent envOffline "portfolio" stOneService).st.content =
        stOneService.content ∨
      (∃ status v, envOffline.apiUrl = true ∧
        envOffline.remoteGet = RemoteGet.resp status (Except.ok v) ∧
        (fetchContent envOffline "portfolio" stOneService).st.content = v) ∨
      (∃ v, stOneService.store.getItem (primaryKey "portfolio") =
          some (some v) ∧
        (fetchContent envOffline "portfolio" stOneService).st.content = v) ∨
      (∃ v, stOneService.store.getItem (fallbackKey "portfolio") =
          some (some v) ∧
        (fetchContent envOffline "portfolio" stOneService).st.content =
          v))) :=
  ⟨by decide, fetch_no_raise_amended envOffline "portfolio" stOneService
    (by decide)⟩

/-- C9: fetch never clears a previously recorded error: the remote
success path and the cache-fallback paths leave the error state
unchanged, so a message recorded by one failed fetch persists across
later successful fetches of the same hook instance. -/
theorem fetch_preserves_error (env : Env) (ct : String) (st : MState) :
    (∀ status data, env.apiUrl = true →
      env.remoteGet = RemoteGet.resp status (Except.ok data) →
      respOk status = true →
      (fetchContent env ct st).st.error = st.error) ∧
    (env.apiUrl = false →
      st.store.getItem (primaryKey ct) ≠ some none →
      (fetchContent env ct st).st.error = st.error) ∧
    (∀ status body, env.apiUrl = true →
      env.remoteGet = RemoteGet.resp status body →
      respOk status = false →
      st.store.getItem (primaryKey ct) ≠ some none →
      (fetchContent env ct st).st.error = st.error) ∧
    (∀ m status data, st.error = some m → env.apiUrl = true →
      env.remoteGet = RemoteGet.resp status (Except.ok data) →
      respOk status = true →
      (fetchContent env ct st).st.error = some m) := by
  refine ⟨?_, ?_, ?_, ?_⟩
  · intro status data h1 h2 h3
    simp [fetchContent, h1, h2, h3]
  · intro h1 h2
    cases hp : st.store.getItem (primaryKey ct) with
    | none => simp [fetchContent, fetchLocal, h1, hp]
    | some o =>
      cases o with
      | none => exact absurd hp h2
      | some v => simp [fetchContent, fetchLocal, h1, hp]
  · intro status body h1 h2 h3 h4
    cases hp : st.store.getItem (primaryKey ct) with
    | none => simp [fetchContent, fetchLocal, h1, h2, h3, hp]
    | some o =>
      cases o with
      | none => exact absurd hp h4
      | some v => simp [fetchContent, fetchLocal, h1, h2, h3, hp]
  · intro m status data h0 h1 h2 h3
    simp [fetchContent, h1, h2, h3, h0]

theorem fetch_preserves_error_witness :
    stWithError.error = some "old failure" ∧
    envGetOk.apiUrl = true ∧
    envGetOk.remoteGet = RemoteGet.resp 200
      (Except.ok [[("id", JVal.str "2")]]) ∧
    respOk 200 = true ∧
    (fetchContent envGetOk "blog" stWithError).st.error =
      some "old failure" :=
  ⟨rfl, rfl, rfl, rfl,
    (fetch_preserves_error envGetOk "blog" stWithError).2.2.2
      "old failure" 200 [[("id", JVal.str "2")]] rfl rfl rfl rfl⟩

/-- C8 counterexample: with a configured remote whose PUT call rejects,
update with an id absent from the collection still throws the re-raised
network error, against the claim that it does not throw. -/
theorem update_absent_id_throws_cex :
    contentIds stOneService = [some (JVal.str "1")] ∧
    envWriteNetErr.apiUrl = true ∧
    (updateContent envWriteNetErr "services" stOneService "42"
      [("price", JVal.num 99)] "t").res =
        Except.error "NetworkError when attempting to fetch resource" ∧
    (updateContent envWriteNetErr "services" stOneService "42"
      [("price", JVal.num 99)] "t").st.content = stOneService.content :=
  ⟨by decide, rfl, rfl, by decide⟩

/-- C8 amended: update with an id absent from the collection leaves the
content unchanged in length and values in every environment, and throws
nothing of its own: it returns normally in cache-only mode, and the only
error it can raise is the re-raised rejection of a configured remote PUT
call. -/
theorem update_absent_id_noop (env : Env) (ct : String) (st : MState)
    (id : String) (patch : Obj) (iso : String)
    (h : ∀ item ∈ st.content, item.lookup "id" ≠ some (JVal.str id)) :
    (updateContent env ct st id patch iso).st.content = st.content ∧
    (env.apiUrl = false →
      (updateContent env ct st id patch iso).res = Except.ok ()) ∧
    (∀ m, (updateContent env ct st id patch iso).res = Except.error m →
      env.apiUrl = true ∧ env.remoteWrite = RemoteWrite.netErr m) := by
  have hmap : (st.content.map fun item =>
      if item.lookup "id" == some (JVal.str id)
      then mergePatch item patch iso else item) = st.content := by
    have hpt : ∀ item ∈ st.content,
        (if item.lookup "id" == some (JVal.str id)
         then mergePatch item patch iso else item) = item := by
      intro item hi
      rw [if_neg]
      simp only [beq_iff_eq]
      exact h item hi
    rw [List.map_congr_left hpt]
    simp
  refine ⟨?_, ?_, ?_⟩
  · rw [updateContent_st]
    simpa using hmap
  · intro ha
    simp [updateContent, ha]
  · intro m hm
    obtain ⟨a, g, w⟩ := env
    cases a with
    | false => simp [updateContent] at hm
    | true =>
      cases w with
      | netErr m0 =>
        simp [updateContent] at hm
        exact ⟨rfl, by rw [hm]⟩
      | resp s => simp [updateContent] at hm

theorem update_absent_id_noop_witness :
    (∀ item ∈ stOneService.content,
      item.lookup "id" ≠ some (JVal.str "42")) ∧
    ((updateContent envOffline "services" stOneService "42"
        [("price", JVal.num 99)] "t").st.content = stOneService.content ∧
     (envOffline.apiUrl = false →
       (updateContent envOffline "services" stOneService "42"
         [("price", JVal.num 99)] "t").res = Except.ok ()) ∧
     (∀ m, (updateContent envOffline "services" stOneService "42"
         [("price", JVal.num 99)] "t").res = Except.error m →
       envOffline.apiUrl = true ∧
       envOffline.remoteWrite = RemoteWrite.netErr m)) :=
  ⟨by decide, update_absent_id_noop envOffline "services" stOneService
    "42" [("price", JVal.num 99)] "t" (by decide)⟩

/-- C4 counterexample: with a remote configured, a non-2xx response to
the optimistic write raises nothing: the operations resolve normally, so
the non-2xx half of the claim fails on the code (the write paths never
inspect the response status). -/
theorem write_non2xx_silent_cex :
    envWrite500.apiUrl = true ∧
    envWrite500.remoteWrite = RemoteWrite.resp 500 ∧
    respOk 500 = false ∧
    (addContent envWrite500 "blog" initState [] 1 "t").res =
      Except.ok (itemWithMeta [] 1 "t") ∧
    (updateContent envWrite500 "services" stOneService "1" [] "t").res =
      Except.ok () ∧
    (deleteContent envWrite500 "services" stOneService "1").res =
      Except.ok () :=
  ⟨rfl, rfl, rfl, rfl, rfl, rfl⟩

/-- C4 amended: with a remote configured, a rejected remote write call is
re-raised to the caller while the optimistic local mutation (in-memory
collection and primary cache) is never rolled back; a write call that
resolves raises nothing, whatever its status, the local mutation equally
standing. -/
theorem write_failure_propagation (ct : String) (st : MState)
    (newItem : Obj) (ts : Nat) (iso id : String) (patch : Obj)
    (m : String) (status : Nat) (g : RemoteGet) :
    ((addContent ⟨true, g, RemoteWrite.netErr m⟩ ct st newItem ts
        iso).res = Except.error m) ∧
    ((addContent ⟨true, g, RemoteWrite.netErr m⟩ ct st newItem ts
        iso).st.content = itemWithMeta newItem ts iso :: st.content) ∧
    ((addContent ⟨true, g, RemoteWrite.netErr m⟩ ct st newItem ts
        iso).st.store.getItem (primaryKey ct) =
      some (some (itemWithMeta newItem ts iso :: st.content))) ∧
    ((updateContent ⟨true, g, RemoteWrite.netErr m⟩ ct st id patch
        iso).res = Except.error m) ∧
    ((updateContent ⟨true, g, RemoteWrite.netErr m⟩ ct st id patch
        iso).st.content = st.content.map fun item =>
          if item.lookup "id" == some (JVal.str id)
          then mergePatch item patch iso else item) ∧
    ((updateContent ⟨true, g, RemoteWrite.netErr m⟩ ct st id patch
        iso).st.store.getItem (primaryKey ct) =
      some (some (st.content.map fun item =>
        if item.lookup "id" == some (JVal.str id)
        then mergePatch item patch iso else item))) ∧
    ((deleteContent ⟨true, g, RemoteWrite.netErr m⟩ ct st id).res =
      Except.error m) ∧
    ((deleteContent ⟨true, g, RemoteWrite.netErr m⟩ ct st id).st.content =
      st.content.filter fun item =>
        !(item.lookup "id" == some (JVal.str id))) ∧
    ((deleteContent ⟨true, g, RemoteWrite.netErr m⟩ ct st
        id).st.store.getItem (primaryKey ct) =
      some (some (st.content.filter fun item =>
        !(item.lookup "id" == some (JVal.str id))))) ∧
    (respOk status = false →
      (addContent ⟨true, g, RemoteWrite.resp status⟩ ct st newItem ts
        iso).res = Except.ok (itemWithMeta newItem ts iso) ∧
      (updateContent ⟨true, g, RemoteWrite.resp status⟩ ct st id patch
        iso).res = Except.ok () ∧
      (deleteContent ⟨true, g, RemoteWrite.resp status⟩ ct st id).res =
        Except.ok ()) := by
  refine ⟨rfl, rfl, ?_, rfl, rfl, ?_, rfl, rfl, ?_, ?_⟩
  · simp [addContent_st, getItem_setItem_self]
  · simp [updateContent_st, getItem_setItem_self]
  · simp [deleteContent_st, getItem_setItem_self]
  · intro hs
    exact ⟨rfl, rfl, rfl⟩

theorem write_failure_propagation_witness :
    respOk 503 = false ∧
    ((addContent ⟨true, RemoteGet.resp 200 (Except.ok []),
        RemoteWrite.resp 503⟩ "blog" initState [] 1 "t").res =
      Except.ok (itemWithMeta [] 1 "t")) ∧
    ((addContent ⟨true, RemoteGet.resp 200 (Except.ok []),
        RemoteWrite.netErr "boom"⟩ "blog" initState [] 1 "t").res =
      Except.error "boom") :=
  ⟨rfl,
    ((write_failure_propagation "blog" initState [] 1 "t" "9" [] "boom"
      503 (RemoteGet.resp 200 (Except.ok []))).2.2.2.2.2.2.2.2.2 rfl).1,
    (write_failure_propagation "blog" initState [] 1 "t" "9" [] "boom"
      503 (RemoteGet.resp 200 (Except.ok []))).1⟩

/-- C7 counterexample: an update whose patch carries a createdAt field
overwrites the createdAt set at creation, against the claim that no
subsequent update ever changes it. -/
theorem update_changes_createdAt_cex :
    (stCreatedA.content.map fun item => item.lookup "createdAt") =
      [some (JVal.str "2024-01-01")] ∧
    ((updateContent envOffline "blog" stCreatedA "1"
        [("createdAt", JVal.str "1999-01-01")] "T").st.content.map
      fun item => item.lookup "createdAt") =
        [some (JVal.str "1999-01-01")] :=
  ⟨by decide, by decide⟩

/-- C7 amended: createdAt and updatedAt are both set to the creation
instant by add; every update refreshes updatedAt on each matched item,
and preserves createdAt whenever its patch does not itself carry a
createdAt field. -/
theorem metadata_timestamps (env : Env) (ct : String) (st : MState)
    (id : String) (patch : Obj) (iso : String) (newItem : Obj) (ts : Nat)
    (hp : patch.lookup "createdAt" = none) :
    ((updateContent env ct st id patch iso).st.content =
      st.content.map fun item =>
        if item.lookup "id" == some (JVal.str id)
        then mergePatch item patch iso else item) ∧
    (∀ item : Obj, (mergePatch item patch iso).lookup "createdAt" =
      item.lookup "createdAt") ∧
    (∀ item patch2 : Obj, (mergePatch item patch2 iso).lookup
      "updatedAt" = some (JVal.str iso)) ∧
    ((itemWithMeta newItem ts iso).lookup "createdAt" =
      some (JVal.str iso)) ∧
    ((itemWithMeta newItem ts iso).lookup "updatedAt" =
      some (JVal.str iso)) := by
  refine ⟨?_, ?_, ?_, ?_, ?_⟩
  · rw [updateContent_st]
  · intro item
    unfold mergePatch
    rw [lookup_cons_ne _ _ _ _ (by decide)]
    exact lookup_append_left_none _ _ _ hp
  · intro item patch2
    exact lookup_cons_self _ _ _
  · simp [itemWithMeta, List.lookup]
  · simp [itemWithMeta, List.lookup]

theorem metadata_timestamps_witness :
    ([(("price" : String), JVal.num 99)].lookup "createdAt" =
      (none : Option JVal)) ∧
    ((mergePatch [("id", JVal.str "1"),
        ("createdAt", JVal.str "2024-01-01")]
        [("price", JVal.num 99)] "2025-03-03").lookup "createdAt" =
      some (JVal.str "2024-01-01")) ∧
    ((mergePatch [("id", JVal.str "1")] [("price", JVal.num 99)]
        "2025-03-03").lookup "updatedAt" = some (JVal.str "2025-03-03")) :=
  ⟨rfl,
    (metadata_timestamps envOffline "blog" stCreatedA "1"
      [("price", JVal.num 99)] "2025-03-03" [] 1 rfl).2.1
      [("id", JVal.str "1"), ("createdAt", JVal.str "2024-01-01")],
    (metadata_timestamps envOffline "blog" stCreatedA "1"
      [("price", JVal.num 99)] "2025-03-03" [] 1 rfl).2.2.1
      [("id", JVal.str "1")] [("price", JVal.num 99)]⟩

/-- C2 counterexample: the error thrown by submitContact on a non-2xx
response is one fixed message carrying neither the HTTP status nor the
endpoint (the 404 and 500 errors are the same value), and
generateWhatsAppLink signals no error at all on a non-2xx response whose
body parses. -/
theorem api_error_shape_cex :
    submitContact (ApiResp.resp 404 (Except.ok Json.null)) =
      Except.error "Failed to submit contact form" ∧
    submitContact (ApiResp.resp 500 (Except.ok Json.null)) =
      Except.error "Failed to submit contact form" ∧
    respOk 500 = false ∧
    generateWhatsAppLink (ApiResp.resp 500 (Except.ok (Json.obj
      [("data", Json.obj [("whatsapp_url",
        Json.str "https://wa.me/x")])]))) =
      Except.ok (Json.str "https://wa.me/x") :=
  ⟨rfl, rfl, rfl, rfl⟩

/-- C2 amended: each of the seven async API operations returns the parsed
JSON body on a 2xx response, re-throws a network rejection as is, and on
a non-2xx response throws a fixed operation-specific message that carries
neither the status nor the endpoint; generateWhatsAppLink never consults
the response status: it parses the body of any response and returns its
data.data.whatsapp_url field under JS property-access semantics. -/
theorem api_operations (status : Nat) (b : Except String Json) (d : Json)
    (m u : String) :
    (respOk status = true →
      submitContact (ApiResp.resp status b) = b ∧
      createBooking (ApiResp.resp status b) = b ∧
      getBookings (ApiResp.resp status b) = b ∧
      getServices (ApiResp.resp status b) = b ∧
      getTestimonials (ApiResp.resp status b) = b ∧
      requestQuote (ApiResp.resp status b) = b ∧
      subscribeNewsletter (ApiResp.resp status b) = b) ∧
    (respOk status = false →
      submitContact (ApiResp.resp status b) =
        Except.error "Failed to submit contact form" ∧
      createBooking (ApiResp.resp status b) =
        Except.error "Failed to create booking" ∧
      getBookings (ApiResp.resp status b) =
        Except.error "Failed to fetch bookings" ∧
      getServices (ApiResp.resp status b) =
        Except.error "Failed to fetch services" ∧
      getTestimonials (ApiResp.resp status b) =
        Except.error "Failed to fetch testimonials" ∧
      requestQuote (ApiResp.resp status b) =
        Except.error "Failed to submit quote request" ∧
      subscribeNewsletter (ApiResp.resp status b) =
        Except.error "Failed to subscribe to newsletter") ∧
    (submitContact (ApiResp.netErr m) = Except.error m ∧
     createBooking (ApiResp.netErr m) = Except.error m ∧
     getBookings (ApiResp.netErr m) = Except.error m ∧
     getServices (ApiResp.netErr m) = Except.error m ∧
     getTestimonials (ApiResp.netErr m) = Except.error m ∧
     requestQuote (ApiResp.netErr m) = Except.error m ∧
     subscribeNewsletter (ApiResp.netErr m) = Except.error m ∧
     generateWhatsAppLink (ApiResp.netErr m) = Except.error m) ∧
    (generateWhatsAppLink (ApiResp.resp status b) =
      generateWhatsAppLink (ApiResp.resp 200 b)) ∧
    (generateWhatsAppLink (ApiResp.resp status (Except.error m)) =
      Except.error m) ∧
    (generateWhatsAppLink (ApiResp.resp status (Except.ok
        (Json.obj [("data", d)]))) = propAccess d "whatsapp_url") ∧
    (generateWhatsAppLink (ApiResp.resp status (Except.ok
        (Json.obj [("data", Json.obj
          [("whatsapp_url", Json.str u)])]))) =
      Except.ok (Json.str u)) := by
  refine ⟨?_, ?_, ?_, rfl, rfl, ?_, rfl⟩
  · intro h
    refine ⟨?_, ?_, ?_, ?_, ?_, ?_, ?_⟩ <;>
      simp [submitContact, createBooking, getBookings, getServices,
        getTestimonials, requestQuote, subscribeNewsletter, requestJson, h]
  · intro h
    refine ⟨?_, ?_, ?_, ?_, ?_, ?_, ?_⟩ <;>
      simp [submitContact, createBooking, getBookings, getServices,
        getTestimonials, requestQuote, subscribeNewsletter, requestJson, h]
  · exact ⟨rfl, rfl, rfl, rfl, rfl, rfl, rfl, rfl⟩
  · simp [generateWhatsAppLink, propAccess]

theorem api_operations_witness :
    respOk 200 = true ∧
    respOk 404 = false ∧
    (submitContact (ApiResp.resp 200 (Except.ok (Json.str "thanks"))) =
      Except.ok (Json.str "thanks")) ∧
    (getServices (ApiResp.resp 404 (Except.ok Json.null)) =
      Except.error "Failed to fetch services") :=
  ⟨rfl, rfl,
    ((api_operations 200 (Except.ok (Json.str "thanks")) Json.null "m"
      "u").1 rfl).1,
    ((api_operations 404 (Except.ok Json.null) Json.null "m" "u").2.1
      rfl).2.2.2.1⟩

/-- C6 counterexample: two adds within the same millisecond observe the
same Date.now value and synthesize equal id strings, so ids are not
unique after every sequence of operations. -/
theorem duplicate_ids_cex :
    ¬ (contentIds (runOps "blog" initState
      [Op.add envOffline [] 5 "t", Op.add envOffline [] 5 "t"])).Nodup :=
  by decide

/-- The id column of the collection after an add: the synthesized id in
front of the previous ids. -/
theorem contentIds_add (env : Env) (ct : String) (st : MState)
    (newItem : Obj) (ts : Nat) (iso : String) :
    contentIds (applyOp ct st (Op.add env newItem ts iso)) =
      some (JVal.str (Nat.repr ts)) :: contentIds st := by
  simp [applyOp, addContent_st, contentIds, itemWithMeta,
    lookup_cons_self]

/-- The id column of the collection is untouched by an update whose patch
carries no id field. -/
theorem contentIds_update (env : Env) (ct : String) (st : MState)
    (id : String) (patch : Obj) (iso : String)
    (hpid : patch.lookup "id" = none) :
    contentIds (applyOp ct st (Op.update env id patch iso)) =
      contentIds st := by
  simp only [applyOp, updateContent_st, contentIds, List.map_map]
  apply List.map_congr_left
  intro item _
  simp only [Function.comp]
  cases hbm : item.lookup "id" == some (JVal.str id) with
  | false => simp [hbm]
  | true =>
    simp only [hbm, if_true]
    unfold mergePatch
    rw [lookup_cons_ne _ _ _ _ (by decide)]
    exact lookup_append_left_none _ _ _ hpid

/-- The id column after a remove is a sublist of the previous one. -/
theorem contentIds_remove (env : Env) (ct : String) (st : MState)
    (id : String) :
    (contentIds (applyOp ct st (Op.remove env id))).Sublist
      (contentIds st) := by
  simp only [applyOp, deleteContent_st, contentIds]
  exact List.Sublist.map _ (List.filter_sublist _)

/-- Fold invariant behind the id-uniqueness theorem: if the current ids
are distinct and all drawn from an already-seen pool disjoint from the
ids the remaining adds will synthesize, running the remaining operations
keeps the ids distinct and drawn from the enlarged pool. -/
theorem runOps_ids_aux (ct : String) (ops : List Op) :
    ∀ (st : MState) (seen : List String),
    (∀ v ∈ contentIds st, ∃ s ∈ seen, v = some (JVal.str s)) →
    (contentIds st).Nodup →
    (seen ++ addIds ops).Nodup →
    (∀ op ∈ ops, op.patchHasId = false) →
    (contentIds (runOps ct st ops)).Nodup ∧
    (∀ v ∈ contentIds (runOps ct st ops),
      ∃ s ∈ seen ++ addIds ops, v = some (JVal.str s)) := by
  induction ops with
  | nil =>
    intro st seen h2 h1 h3 h4
    refine ⟨h1, ?_⟩
    intro v hv
    obtain ⟨s, hs, hveq⟩ := h2 v hv
    exact ⟨s, by simpa [addIds] using hs, hveq⟩
  | cons op rest ih =>
    intro st seen h2 h1 h3 h4
    have hrun : runOps ct st (op :: rest) =
        runOps ct (applyOp ct st op) rest := rfl
    have h4r : ∀ o ∈ rest, o.patchHasId = false := by
      intro o ho
      exact h4 o (List.mem_cons_of_mem _ ho)
    cases op with
    | add env newItem ts iso =>
      have haddIds : addIds (Op.add env newItem ts iso :: rest) =
          Nat.repr ts :: addIds rest := by
        simp [addIds, Op.addTs]
      have hids := contentIds_add env ct st newItem ts iso
      have h3a : (seen ++ (Nat.repr ts :: addIds rest)).Nodup := by
        rw [haddIds] at h3
        exact h3
      have hfresh : some (JVal.str (Nat.repr ts)) ∉ contentIds st := by
        intro hmem
        obtain ⟨s, hs, hveq⟩ := h2 _ hmem
        have hse : Nat.repr ts = s := by
          simpa using hveq
        rcases List.nodup_append.mp h3a with ⟨-, -, hdisj⟩
        exact hdisj (hse ▸ hs) (List.mem_cons_self _ _)
      have h3b : ((seen ++ [Nat.repr ts]) ++ addIds rest).Nodup := by
        rw [← List.append_cons]
        exact h3a
      have h2a : ∀ v ∈ contentIds (applyOp ct st
          (Op.add env newItem ts iso)),
          ∃ s ∈ seen ++ [Nat.repr ts], v = some (JVal.str s) := by
        intro v hv
        rw [hids] at hv
        rcases List.mem_cons.mp hv with hcase | hcase
        · exact ⟨Nat.repr ts,
            List.mem_append.mpr (Or.inr (List.mem_cons_self _ _)), hcase⟩
        · obtain ⟨s, hs, hveq⟩ := h2 _ hcase
          exact ⟨s, List.mem_append.mpr (Or.inl hs), hveq⟩
      have h1a : (contentIds (applyOp ct st
          (Op.add env newItem ts iso))).Nodup := by
        rw [hids]
        exact List.nodup_cons.mpr ⟨hfresh, h1⟩
      have hstep := ih (applyOp ct st (Op.add env newItem ts iso))
        (seen ++ [Nat.repr ts]) h2a h1a h3b h4r
      rw [hrun, haddIds, List.append_cons]
      exact hstep
    | update env id patch iso =>
      have hpid : patch.lookup "id" = none := by
        have hhead := h4 (Op.update env id patch iso)
          (List.mem_cons_self _ _)
        cases hv : patch.lookup "id" with
        | none => rfl
        | some x => simp [Op.patchHasId, hv] at hhead
      have hids := contentIds_update env ct st id patch iso hpid
      have haddIds : addIds (Op.update env id patch iso :: rest) =
          addIds rest := by
        simp [addIds, Op.addTs]
      have hstep := ih (applyOp ct st (Op.update env id patch iso)) seen
        (by rw [hids]; exact h2) (by rw [hids]; exact h1)
        (by rw [haddIds] at h3; exact h3) h4r
      rw [hrun, haddIds]
      exact hstep
    | remove env id =>
      have hsub := contentIds_remove env ct st id
      have haddIds : addIds (Op.remove env id :: rest) = addIds rest := by
        simp [addIds, Op.addTs]
      have hstep := ih (applyOp ct st (Op.remove env id)) seen
        (fun v hv => h2 v (hsub.subset hv)) (h1.sublist hsub)
        (by rw [haddIds] at h3; exact h3) h4r
      rw [hrun, haddIds]
      exact hstep

/-- C6 amended: starting from an empty collection, after any sequence of
add, update and remove operations in which the adds synthesize pairwise
distinct id strings (adds at pairwise distinct Date.now values) and no
update patch carries an id field of its own, the id values of the
collection are pairwise distinct, and each one is the string the creating
add synthesized from its Date.now value, never a caller-supplied value. -/
theorem ids_unique (ct : String) (ops : List Op) (st : MState)
    (hstart : st.content = [])
    (hts : (addIds ops).Nodup)
    (hpatch : ∀ op ∈ ops, op.patchHasId = false) :
    (contentIds (runOps ct st ops)).Nodup ∧
    ∀ v ∈ contentIds (runOps ct st ops),
      ∃ s ∈ addIds ops, v = some (JVal.str s) := by
  have h := runOps_ids_aux ct ops st []
    (by simp [contentIds, hstart]) (by simp [contentIds, hstart])
    (by simpa using hts) hpatch
  simpa using h

theorem ids_unique_witness :
    initState.content = [] ∧
    (addIds [Op.add envOffline [("id", JVal.str "fake")] 1 "t",
      Op.update envOffline "1" [("price", JVal.num 7)] "t",
      Op.add envOffline [] 2 "t",
      Op.remove envOffline "2"]).Nodup ∧
    (∀ op ∈ [Op.add envOffline [("id", JVal.str "fake")] 1 "t",
      Op.update envOffline "1" [("price", JVal.num 7)] "t",
      Op.add envOffline [] 2 "t",
      Op.remove envOffline "2"], op.patchHasId = false) ∧
    ((contentIds (runOps "blog" initState
      [Op.add envOffline [("id", JVal.str "fake")] 1 "t",
       Op.update envOffline "1" [("price", JVal.num 7)] "t",
       Op.add envOffline [] 2 "t",
       Op.remove envOffline "2"])).Nodup ∧
     ∀ v ∈ contentIds (runOps "blog" initState
      [Op.add envOffline [("id", JVal.str "fake")] 1 "t",
       Op.update envOffline "1" [("price", JVal.num 7)] "t",
       Op.add envOffline [] 2 "t",
       Op.remove envOffline "2"]),
      ∃ s ∈ addIds [Op.add envOffline [("id", JVal.str "fake")] 1 "t",
        Op.update envOffline "1" [("price", JVal.num 7)] "t",
        Op.add envOffline [] 2 "t",
        Op.remove envOffline "2"], v = some (JVal.str s)) :=
  ⟨rfl, by decide, by decide,
    ids_unique "blog" _ initState rfl (by decide) (by decide)⟩

end Ignux
